import Mathlib

/-!
Shallow embedding of the attendance registration and check-in core of
`src/frontend/app.py` (a Flask + SQLAlchemy application).

Modelling conventions:
* The three SQLAlchemy models `Event`, `Participant`, `Attendance` become
  structures; `DateTime` columns become `Nat` timestamps.
* The database session becomes an explicit `DB` record holding the three
  tables as lists; a `query.filter_by(...).first()` becomes `List.find?`
  and `query.get_or_404` on a primary key becomes `find?` on the id column.
* Each route handler becomes a pure function from the request data and the
  current `DB` to a result value and the `DB` after the commit.
* The external `qrcode` library call `generate_qr_code_svg(data)` is kept as
  the exact payload handed to the encoder (the rendering itself lives outside
  the repository and is deterministic in the payload).
-/

namespace SwiftAttend

/-- The `Event` model, app.py lines 25-37. `id` is the primary key. -/
structure Event where
  id : String
  name : String
  date : Nat
  location : String
  description : Option String
  created_at : Nat
deriving DecidableEq, Repr

/-- The `Participant` model, app.py lines 39-51. `id` is the primary key;
`event_id` is a foreign key into `Event`. -/
structure Participant where
  id : String
  event_id : String
  name : String
  student_id : String
  email : String
  registration_date : Nat
deriving DecidableEq, Repr

/-- The `Attendance` model, app.py lines 53-60. `participant_id` carries a
schema-level `unique=True` constraint. -/
structure Attendance where
  id : Nat
  participant_id : String
  event_id : String
  check_in_time : Nat
deriving DecidableEq, Repr

/-- The persistent store: the three tables of `swiftattend.db`. -/
structure DB where
  events : List Event
  participants : List Participant
  attendances : List Attendance
deriving DecidableEq, Repr

/-- Primary-key lookup `Event.query.get_or_404(event_id)` (app.py lines
144, 151, 159, 197, 205, 247). `none` models the 404 outcome. -/
def get_event (db : DB) (eid : String) : Option Event :=
  db.events.find? (fun e => e.id == eid)

/-- Primary-key lookup `Participant.query.get_or_404(participant_id)`
(app.py line 246). -/
def get_participant (db : DB) (pid : String) : Option Participant :=
  db.participants.find? (fun p => p.id == pid)

/-- The query `Participant.query.filter_by(id=participant_id,
event_id=event_id).first()` (app.py line 270): the participant is resolved by
identifier AND owning event id together. -/
def find_participant (db : DB) (pid eid : String) : Option Participant :=
  db.participants.find? (fun p => p.id == pid && p.event_id == eid)

/-- The duplicate-registration natural-key query, app.py lines 217-220:
an existing participant of the same event matching on student_id OR email. -/
def find_existing_participant (db : DB) (eid student_id email : String) :
    Option Participant :=
  db.participants.find?
    (fun p => p.event_id == eid && (p.student_id == student_id || p.email == email))

/-- The count query `Attendance.query.filter_by(event_id=event.id).count()`
(app.py lines 146, 198). -/
def count_attendances (db : DB) (eid : String) : Nat :=
  (db.attendances.filter (fun a => a.event_id == eid)).length

/-- The vector image produced by `generate_qr_code_svg` (app.py lines 67-73).
The `qrcode` library renders `payload` deterministically; the embedding
records the exact payload string handed to it. -/
structure ScannableImage where
  payload : String
deriving DecidableEq, Repr

/-- Helper `generate_qr_code_svg(data)`, app.py lines 67-73. -/
def generate_qr_code_svg (data : String) : ScannableImage :=
  { payload := data }

/-- The external URL built by `url_for` for the registration route
`/event/<event_id>/register` (app.py lines 161 and 203). -/
def registration_url (base_url eid : String) : String :=
  base_url ++ "/event/" ++ eid ++ "/register"

/-- GET `/admin/event/<event_id>/qr_code` (app.py lines 157-163): 404 when
the event is absent, otherwise the page carries the QR image of the
registration URL of the event. -/
def event_qr_code (db : DB) (base_url eid : String) : Option ScannableImage :=
  match get_event db eid with
  | none => none
  | some e => some (generate_qr_code_svg (registration_url base_url e.id))

/-- GET `/participant/<participant_id>/qr` (app.py lines 244-253): two
`get_or_404` lookups, then the QR image of the bare participant id. -/
def show_participant_qr (db : DB) (pid : String) : Option ScannableImage :=
  match get_participant db pid with
  | none => none
  | some p =>
    match get_event db p.event_id with
    | none => none
    | some _ => some (generate_qr_code_svg p.id)

/-- One mock notification produced by `send_registration_email` (app.py
lines 75-99): recipient, participant name, event name and the QR payload
handed over as `qr_code_svg`. -/
structure RegistrationEmail where
  recipient_email : String
  participant_name : String
  event_name : String
  qr_code_data : String
deriving DecidableEq, Repr

/-- Outcome of POST `/event/<event_id>/register` (app.py lines 203-242). -/
inductive RegisterResult where
  /-- Outcome when `get_or_404` fails: the event does not exist (HTTP 404). -/
  | notFound
  /-- The all-fields-are-required danger flash of app.py line 213. -/
  | validationError
  /-- The already-registered warning flash plus redirect to
  `show_participant_qr` of the EXISTING participant, app.py lines 222-225. -/
  | alreadyRegistered (participant_id : String)
  /-- A fresh participant was committed; redirect to its QR page,
  app.py lines 227-240. -/
  | registered (participant_id : String)
deriving DecidableEq, Repr

/-- POST `/event/<event_id>/register` (app.py lines 203-242). `new_id` is
the uuid4 the Participant default would draw, `now` the commit timestamp.
The third component collects the notifications sent during the request. -/
def register_for_event (db : DB) (eid name student_id email : String)
    (new_id : String) (now : Nat) :
    RegisterResult × DB × List RegistrationEmail :=
  match get_event db eid with
  | none => (.notFound, db, [])
  | some event =>
    -- `if not all([name, student_id, email])` (line 212): empty string is falsy
    if name == "" || student_id == "" || email == "" then
      (.validationError, db, [])
    else
      match find_existing_participant db event.id student_id email with
      | some existing =>
        -- lines 222-225: no insert, no email, redirect to the existing QR
        (.alreadyRegistered existing.id, db, [])
      | none =>
        -- lines 227-240: insert + commit, then QR generation, then the email
        let new_participant : Participant :=
          { id := new_id, event_id := event.id, name := name,
            student_id := student_id, email := email, registration_date := now }
        let db' : DB := { db with participants := db.participants ++ [new_participant] }
        let qr_svg := generate_qr_code_svg new_participant.id
        (.registered new_participant.id, db',
          [{ recipient_email := email, participant_name := name,
             event_name := event.name, qr_code_data := qr_svg.payload }])

/-- Outcome of POST `/api/checkin` (app.py lines 261-292). -/
inductive CheckInResult where
  /-- HTTP 400, `Missing participant ID or event ID` (line 268). -/
  | badRequest
  /-- HTTP 404, `Participant not found for this event` (line 273). -/
  | notFound
  /-- The `status: success` JSON of lines 287-292. In the source this
  branch is unreachable: see `nameError`. -/
  | success (participant_name student_id : String)
  /-- The `status: warning` duplicate JSON of lines 277-281, carrying the
  stored first check-in time. In the source this branch is unreachable:
  see `nameError`. -/
  | duplicateCheckIn (participant_name student_id : String) (first_check_in_time : Nat)
  /-- Unhandled `NameError` (HTTP 500): once the participant is resolved,
  line 276 evaluates `event.id`, but no local or global named `event`
  exists anywhere in `api_checkin` or at module scope of app.py — the
  handler raises before the duplicate query runs and before any
  `Attendance` row is inserted (lines 276, 283 and 289 all reference the
  unbound name `event`). -/
  | nameError
deriving DecidableEq, Repr

/-- POST `/api/checkin` (app.py lines 261-292). `data.get(...)` yields
`None` for an absent JSON field; `if not participant_id or not event_id`
(line 267) is true exactly for `None` and for the empty string, which the
embedding folds into `Option.getD ""`. -/
def api_checkin (db : DB) (participant_id event_id : Option String) :
    CheckInResult × DB :=
  if participant_id.getD "" == "" || event_id.getD "" == "" then
    (.badRequest, db)
  else
    match find_participant db (participant_id.getD "") (event_id.getD "") with
    | none => (.notFound, db)
    | some _ =>
      -- line 276 raises NameError (unbound `event`); the session is never
      -- written, so the store is returned unchanged
      (.nameError, db)

/-- The effect of `db.session.delete(event)` under the
all-delete-orphan cascade relationships of app.py lines 33-34 and 48:
every Participant whose `event_id` matches is removed, every Attendance
whose `event_id` matches is removed, and so is the Attendance of every
removed Participant. -/
def cascade_delete (db : DB) (eid : String) : DB :=
  { events := db.events.filter (fun e => e.id != eid),
    participants := db.participants.filter (fun p => p.event_id != eid),
    attendances := db.attendances.filter (fun a =>
      a.event_id != eid &&
      !(db.participants.any (fun p => p.event_id == eid && p.id == a.participant_id))) }

/-- POST `/admin/event/<event_id>/delete` (app.py lines 149-155):
`get_or_404` (the `none` outcome models the 404), then one commit applying
`cascade_delete`. -/
def delete_event (db : DB) (eid : String) : Option DB :=
  match get_event db eid with
  | none => none
  | some _ => some (cascade_delete db eid)

/-- Outcome of GET `/admin/event/<event_id>/live_attendance`
(app.py lines 195-199). -/
inductive LiveCountResult where
  /-- Outcome when `get_or_404` fails (HTTP 404). -/
  | notFound
  /-- The `attendance_count` JSON of line 199. -/
  | ok (attendance_count : Nat)
deriving DecidableEq, Repr

/-- GET `/admin/event/<event_id>/live_attendance` (app.py lines 195-199). -/
def live_attendance (db : DB) (eid : String) : LiveCountResult :=
  match get_event db eid with
  | none => .notFound
  | some e => .ok (count_attendances db e.id)

/-- The `Participant.id` column is the primary key (app.py line 40): no two
stored rows share it. -/
def participant_pk_unique (db : DB) : Prop :=
  ∀ p ∈ db.participants, ∀ q ∈ db.participants, p.id = q.id → p = q

/-- A sample event for concrete evaluations. -/
def ev1 : Event :=
  { id := "ev1", name := "Demo Day", date := 100, location := "Hall A",
    description := none, created_at := 50 }

/-- A sample participant of `ev1`. -/
def alice : Participant :=
  { id := "alice-token", event_id := "ev1", name := "Alice",
    student_id := "S100", email := "a@x.com", registration_date := 60 }

/-- Store holding `ev1` and `alice`, with no attendance yet. -/
def db0 : DB := { events := [ev1], participants := [alice], attendances := [] }

/-- An attendance row of `alice` at `ev1`. -/
def att1 : Attendance :=
  { id := 1, participant_id := "alice-token", event_id := "ev1", check_in_time := 70 }

/-- Store holding `ev1` and `alice`, with `alice` already checked in. -/
def db1 : DB := { events := [ev1], participants := [alice], attendances := [att1] }

/-- C1: the claim fails on the code. For the registered, not-yet-checked-in
participant `alice` of event `ev1`, the check-in request does not return a
Success result: after the participant is resolved, app.py line 276 evaluates
`event.id` where no name `event` is bound, so the handler raises `NameError`
(HTTP 500), and afterwards zero (not one) Attendance records exist for
`alice`. -/
theorem c1_checkin_fresh_participant_raises_name_error :
    api_checkin db0 (some "alice-token") (some "ev1") = (.nameError, db0) ∧
    count_attendances (api_checkin db0 (some "alice-token") (some "ev1")).2 "ev1" = 0 := by
  constructor <;> rfl

/-- C2: the claim fails on the code. For the already-checked-in participant
`alice` of `ev1` (store `db1`), the second check-in request does not return a
DuplicateCheckIn result with the original timestamp: the `NameError` of
app.py line 276 fires while the duplicate-lookup query is being built, so the
handler answers HTTP 500 (the store is left unchanged). -/
theorem c2_duplicate_checkin_raises_name_error :
    api_checkin db1 (some "alice-token") (some "ev1") = (.nameError, db1) := by
  rfl

/-- C3: the claim fails on the code. For every store and every request, a
check-in call answers badRequest, notFound or nameError — never Success and
never DuplicateCheckIn — and never modifies the store; so under N calls for
the same participant, sequential or concurrent, zero callers (not exactly
one) observe Success and no Attendance is ever created by check-in. -/
theorem c3_checkin_never_reports_success (db : DB) (pid eid : Option String) :
    ((api_checkin db pid eid).1 = .badRequest ∨
     (api_checkin db pid eid).1 = .notFound ∨
     (api_checkin db pid eid).1 = .nameError) ∧
    (api_checkin db pid eid).2 = db := by
  unfold api_checkin
  split
  · exact ⟨Or.inl rfl, rfl⟩
  · split
    · exact ⟨Or.inr (Or.inl rfl), rfl⟩
    · exact ⟨Or.inr (Or.inr rfl), rfl⟩

/-- C7: a check-in request in which participant_id or event_id is absent or
empty answers HTTP 400 and returns the store unchanged; the result does not
depend on the store contents, so no stored state is read, and neither field
is defaulted. -/
theorem c7_missing_field_is_bad_request (db : DB) (pid eid : Option String)
    (h : pid.getD "" = "" ∨ eid.getD "" = "") :
    api_checkin db pid eid = (.badRequest, db) := by
  unfold api_checkin
  rcases h with h | h <;> simp [h]

/-- Concrete instance of `c7_missing_field_is_bad_request`: a request with no
participant_id at all. -/
theorem c7_missing_field_is_bad_request_witness :
    ((none : Option String).getD "" = "" ∨ (some "ev1" : Option String).getD "" = "") ∧
    api_checkin db0 none (some "ev1") = (.badRequest, db0) :=
  ⟨Or.inl rfl, c7_missing_field_is_bad_request db0 none (some "ev1") (Or.inl rfl)⟩

/-- C6: a valid participant identifier scanned against any non-empty event id
other than the owning one resolves to NotFound (never to a cross-event
match), and the store is unchanged. The primary-key hypothesis reflects the
schema of app.py line 40. -/
theorem c6_cross_event_checkin_not_found (db : DB) (p : Participant) (eid : String)
    (hpk : participant_pk_unique db) (hp : p ∈ db.participants)
    (hev : eid ≠ p.event_id) (hpid : p.id ≠ "") (heid : eid ≠ "") :
    api_checkin db (some p.id) (some eid) = (.notFound, db) := by
  have hfind : find_participant db p.id eid = none := by
    unfold find_participant
    rw [List.find?_eq_none]
    intro q hq hmatch
    simp only [Bool.and_eq_true, beq_iff_eq] at hmatch
    obtain ⟨h1, h2⟩ := hmatch
    rw [hpk q hq p hp h1] at h2
    exact hev h2.symm
  unfold api_checkin
  simp [hpid, heid, hfind]

/-- Concrete instance of `c6_cross_event_checkin_not_found`: the token of
`alice` (owned by event `ev1`) scanned against event id `ev2`. -/
theorem c6_cross_event_checkin_not_found_witness :
    api_checkin db0 (some "alice-token") (some "ev2") = (.notFound, db0) :=
  c6_cross_event_checkin_not_found db0 alice "ev2"
    (by unfold participant_pk_unique; decide) (by decide) (by decide) (by decide) (by decide)

/-- C8: for an existing event, the event-level QR page encodes exactly the
registration URL base_url/event/event_id/register, and for an existing
participant (of an existing event) the personal QR page encodes exactly the
bare participant identifier and nothing else. -/
theorem c8_qr_payloads (db : DB) (base_url eid pid : String)
    (ev : Event) (hev : get_event db eid = some ev)
    (p : Participant) (hp : get_participant db pid = some p)
    (pev : Event) (hpev : get_event db p.event_id = some pev) :
    event_qr_code db base_url eid =
      some (generate_qr_code_svg (base_url ++ "/event/" ++ eid ++ "/register")) ∧
    show_participant_qr db pid = some (generate_qr_code_svg pid) := by
  have hevid : ev.id = eid := by
    have h' := hev
    unfold get_event at h'
    simpa using List.find?_some h'
  have hpid : p.id = pid := by
    have h' := hp
    unfold get_participant at h'
    simpa using List.find?_some h'
  constructor
  · simp only [event_qr_code, hev, hevid]
    rfl
  · simp only [show_participant_qr, hp, hpev, hpid]

/-- Concrete instance of `c8_qr_payloads` on the store `db0`. -/
theorem c8_qr_payloads_witness :
    event_qr_code db0 "https://h" "ev1" =
      some (generate_qr_code_svg ("https://h" ++ "/event/" ++ "ev1" ++ "/register")) ∧
    show_participant_qr db0 "alice-token" = some (generate_qr_code_svg "alice-token") :=
  c8_qr_payloads db0 "https://h" "ev1" "alice-token" ev1 rfl alice rfl ev1 rfl

/-- C10: for an event id that matches no stored Event, the live count route
answers NotFound (HTTP 404), never the count 0; for an existing event it
answers exactly the number of Attendance rows whose event_id equals that
id of that event in the store at call time. -/
theorem c10_live_attendance_spec (db : DB) (eid : String) :
    (get_event db eid = none → live_attendance db eid = .notFound) ∧
    (∀ ev, get_event db eid = some ev →
      live_attendance db eid = .ok (count_attendances db eid)) := by
  constructor
  · intro h
    unfold live_attendance
    rw [h]
  · intro ev h
    have hevid : ev.id = eid := by
      have h' := h
      unfold get_event at h'
      simpa using List.find?_some h'
    simp only [live_attendance, h, hevid]

/-- Concrete instance of `c10_live_attendance_spec`: in `db1` event `ev1` has
exactly one attendance row, and the live count route reports 1. -/
theorem c10_live_attendance_spec_witness :
    live_attendance db1 "ev1" = .ok 1 :=
  (c10_live_attendance_spec db1 "ev1").2 ev1 rfl

/-- C4: registering for an existing event with non-empty fields, when some
existing Participant of the event matches on student_id OR email, creates no
new Participant (the store is returned unchanged, so the Participant count of
the event is unchanged), signals AlreadyRegistered and redirects to the
id of the existing Participant. -/
theorem c4_duplicate_registration (db : DB) (eid nm sid em new_id : String)
    (now : Nat) (ev : Event) (hev : get_event db eid = some ev)
    (hnm : nm ≠ "") (hsid : sid ≠ "") (hem : em ≠ "")
    (hdup : ∃ q ∈ db.participants,
      q.event_id = ev.id ∧ (q.student_id = sid ∨ q.email = em)) :
    ∃ q ∈ db.participants, q.event_id = ev.id ∧ (q.student_id = sid ∨ q.email = em) ∧
      register_for_event db eid nm sid em new_id now =
        (.alreadyRegistered q.id, db, []) := by
  have hsome : (find_existing_participant db ev.id sid em).isSome := by
    unfold find_existing_participant
    rw [List.find?_isSome]
    obtain ⟨q, hq, h1, h2⟩ := hdup
    refine ⟨q, hq, ?_⟩
    rcases h2 with h2 | h2 <;> simp [h1, h2]
  obtain ⟨q₀, hfind⟩ := Option.isSome_iff_exists.mp hsome
  have hmem : q₀ ∈ db.participants := by
    have h' := hfind
    unfold find_existing_participant at h'
    exact List.mem_of_find?_eq_some h'
  have hpred := hfind
  unfold find_existing_participant at hpred
  replace hpred := List.find?_some hpred
  simp only [Bool.and_eq_true, Bool.or_eq_true, beq_iff_eq] at hpred
  refine ⟨q₀, hmem, hpred.1, hpred.2, ?_⟩
  simp [register_for_event, hev, hnm, hsid, hem, hfind]

/-- Concrete instance of `c4_duplicate_registration`: a second registration
for `ev1` reusing the student identifier of `alice`. -/
theorem c4_duplicate_registration_witness :
    ∃ q ∈ db0.participants, q.event_id = ev1.id ∧
      (q.student_id = "S100" ∨ q.email = "b@y.com") ∧
      register_for_event db0 "ev1" "Alice Again" "S100" "b@y.com" "tok2" 99 =
        (.alreadyRegistered q.id, db0, []) :=
  c4_duplicate_registration db0 "ev1" "Alice Again" "S100" "b@y.com" "tok2" 99 ev1
    rfl (by decide) (by decide) (by decide) (by decide)

/-- C5: deleting an existing event removes, in one transition, the Event row
and every Participant and Attendance referencing it; afterwards `get_event`
answers NotFound and a check-in for any former participant of the event
answers NotFound. -/
theorem c5_delete_event_cascade (db : DB) (eid : String) (ev : Event)
    (hev : get_event db eid = some ev) (heid : eid ≠ "") :
    ∃ db', delete_event db eid = some db' ∧
      (∀ e ∈ db'.events, e.id ≠ eid) ∧
      (∀ p ∈ db'.participants, p.event_id ≠ eid) ∧
      (∀ a ∈ db'.attendances, a.event_id ≠ eid) ∧
      get_event db' eid = none ∧
      (∀ p ∈ db.participants, p.event_id = eid → p.id ≠ "" →
        api_checkin db' (some p.id) (some eid) = (.notFound, db')) := by
  refine ⟨cascade_delete db eid, ?_, ?_, ?_, ?_, ?_, ?_⟩
  · unfold delete_event
    rw [hev]
  · intro e he
    simp only [cascade_delete] at he
    simpa using (List.mem_filter.mp he).2
  · intro p hp
    simp only [cascade_delete] at hp
    simpa using (List.mem_filter.mp hp).2
  · intro a ha
    simp only [cascade_delete] at ha
    have h2 := (List.mem_filter.mp ha).2
    rw [Bool.and_eq_true] at h2
    simpa using h2.1
  · unfold get_event
    rw [List.find?_eq_none]
    intro e he
    simp only [cascade_delete] at he
    have h2 : e.id ≠ eid := by simpa using (List.mem_filter.mp he).2
    simpa using h2
  · intro p hp hpe hpid
    have hfind : find_participant (cascade_delete db eid) p.id eid = none := by
      unfold find_participant
      rw [List.find?_eq_none]
      intro q hq hmatch
      simp only [cascade_delete] at hq
      have hne : q.event_id ≠ eid := by simpa using (List.mem_filter.mp hq).2
      rw [Bool.and_eq_true] at hmatch
      exact hne (by simpa using hmatch.2)
    unfold api_checkin
    simp [hpid, heid, hfind]

/-- Concrete instance of `c5_delete_event_cascade`: deleting `ev1` from the
store `db1` that holds a participant and an attendance of `ev1`. -/
theorem c5_delete_event_cascade_witness :
    ∃ db', delete_event db1 "ev1" = some db' ∧
      (∀ e ∈ db'.events, e.id ≠ "ev1") ∧
      (∀ p ∈ db'.participants, p.event_id ≠ "ev1") ∧
      (∀ a ∈ db'.attendances, a.event_id ≠ "ev1") ∧
      get_event db' "ev1" = none ∧
      (∀ p ∈ db1.participants, p.event_id = "ev1" → p.id ≠ "" →
        api_checkin db' (some p.id) (some "ev1") = (.notFound, db')) :=
  c5_delete_event_cascade db1 "ev1" ev1 rfl (by decide)

/-- C9: a registration attempt that signals AlreadyRegistered sends no
notification at all, and whenever a notification was sent the request
created and committed a fresh Participant (the registered result, with the
new row present in the store). -/
theorem c9_no_notification_on_duplicate (db : DB) (eid nm sid em new_id : String)
    (now : Nat) :
    (∀ x, (register_for_event db eid nm sid em new_id now).1 = .alreadyRegistered x →
      (register_for_event db eid nm sid em new_id now).2.2 = []) ∧
    ((register_for_event db eid nm sid em new_id now).2.2 ≠ [] →
      (register_for_event db eid nm sid em new_id now).1 = .registered new_id ∧
      ∃ q ∈ (register_for_event db eid nm sid em new_id now).2.1.participants,
        q.id = new_id) := by
  unfold register_for_event
  split
  · exact ⟨fun x h => rfl, fun h => absurd rfl h⟩
  · rename_i event heq
    split
    · exact ⟨fun x h => rfl, fun h => absurd rfl h⟩
    · split
      · exact ⟨fun x h => rfl, fun h => absurd rfl h⟩
      · refine ⟨fun x h => ?_, fun h => ⟨rfl, ?_⟩⟩
        · exact absurd h (by simp)
        · refine ⟨⟨new_id, event.id, nm, sid, em, now⟩, ?_, rfl⟩
          simp

/-- Concrete instance of `c9_no_notification_on_duplicate`: the duplicate
registration of `c4_duplicate_registration_witness` sends no email. -/
theorem c9_no_notification_on_duplicate_witness :
    (register_for_event db0 "ev1" "Alice Again2" "S100" "c@y.com" "tok3" 99).2.2 = [] :=
  (c9_no_notification_on_duplicate db0 "ev1" "Alice Again2" "S100" "c@y.com" "tok3" 99).1
    "alice-token" rfl

end SwiftAttend
